import Mathlib

/-!
Verification of the relevance-filter core of `networking_arista/common/db_lib.py`.

The module is embedded shallowly: the SQLAlchemy queries are modelled as
functions over an explicit entity store (`Store`) together with the external
configuration (`Config`).  Each accessor materializes the set of rows the
corresponding query returns, at row-membership granularity (SQL join
multiplicity is irrelevant to every property below, which all speak about
which rows appear in a result).  Python truthiness tests (`if vnic_type:`,
`if not device_owners:`, `if tenant_id:`, `if binding_key:`) are modelled
exactly, since several properties hinge on them.
-/

/-- Lower-case a string into its character list.  SQL `ILIKE` comparisons are
case-insensitive; this models the case folding. -/
def lowerChars (s : String) : List Char := s.data.map Char.toLower

/-- Model of `column.ilike(pat + '%')` for a wildcard-free `pat`:
case-insensitive prefix test (source: `'%s%%' % owner` patterns). -/
def ciStartsWith (pat s : String) : Bool :=
  (lowerChars pat).isPrefixOf (lowerChars s)

/-- Helper: is `p` a contiguous sublist of `l`? -/
def hasSubList (p : List Char) : List Char → Bool
  | [] => p.isEmpty
  | c :: cs => p.isPrefixOf (c :: cs) || hasSubList p cs

/-- Model of `column.ilike('%%%s%%' % pat)`: case-insensitive substring test. -/
def ciHasSub (s pat : String) : Bool :=
  hasSubList (lowerChars pat) (lowerChars s)

/-- `neutron.db.models_v2.Network` (the columns this module reads). -/
structure Network where
  id : String
  project_id : String
  deriving DecidableEq

/-- `neutron.db.models_v2.Port` (the columns this module reads).
`device_id` and `network_id` are nullable columns, the source compares them
against `None`. -/
structure Port where
  id : String
  network_id : Option String
  device_id : Option String
  device_owner : String
  project_id : String
  status : String
  deriving DecidableEq

/-- `neutron.db.models.segment.NetworkSegment` (the columns this module reads). -/
structure NetworkSegment where
  id : String
  network_id : String
  network_type : String
  physical_network : Option String
  deriving DecidableEq

/-- A row of `ml2_models.PortBinding` / `ml2_models.DistributedPortBinding`
(the two tables carry the same columns as far as this module is concerned). -/
structure PortBinding where
  port_id : String
  host : String
  vnic_type : String
  profile : String
  deriving DecidableEq

/-- `ml2_models.PortBindingLevel` (the columns this module reads). -/
structure PortBindingLevel where
  port_id : String
  host : String
  level : Nat
  deriving DecidableEq

/-- The read-only entity store the queries run against. -/
structure Store where
  networks : List Network
  ports : List Port
  segments : List NetworkSegment
  port_bindings : List PortBinding
  dist_port_bindings : List PortBinding
  binding_levels : List PortBindingLevel
  deriving DecidableEq

/-- External configuration (`networking_arista.common.utils` constants and
`cfg.CONF.ml2_arista['managed_physnets']`).  `utils.py` is outside the given
sources; per the spec these are opaque external lookup tables, so they are
parameters of the model. -/
structure Config where
  supported_device_owners : List String
  unsupported_device_owners : List String
  unsupported_device_ids : List String
  managed_physnets : List String
  deriving DecidableEq

/-- `n_const.PORT_STATUS_ACTIVE` (external neutron-lib constant). -/
def portStatusActive : String := "ACTIVE"

/-- `n_const.DEVICE_OWNER_COMPUTE_PREFIX` (external neutron-lib constant). -/
def deviceOwnerCompute : String := "compute:"

/-- `n_const.DEVICE_OWNER_DHCP` (external neutron-lib constant). -/
def deviceOwnerDhcp : String := "network:dhcp"

/-- `n_const.DEVICE_OWNER_DVR_INTERFACE` (external neutron-lib constant). -/
def deviceOwnerDvrInterface : String := "network:router_interface_distributed"

/-- `portbindings.VNIC_NORMAL` (external neutron-lib constant). -/
def vnicNormal : String := "normal"

/-- `portbindings.VNIC_BAREMETAL` (external neutron-lib constant). -/
def vnicBaremetal : String := "baremetal"

/-- Python truthiness of an optional string argument (`if s:`). -/
def strTruthy : Option String → Bool
  | none => false
  | some s => s != ""

/-- Per-port content of `filter_unbound_ports`: the query inner-joins
`PortBindingLevel` (relationship on `port_id`) and keeps rows with
`binding_level.host != ''`, `port.device_id != None`,
`port.network_id != None`. -/
def unboundPred (store : Store) (p : Port) : Bool :=
  store.binding_levels.any (fun bl => bl.port_id == p.id && bl.host != "") &&
  p.device_id.isSome && p.network_id.isSome

/-- `if not device_owners: device_owners = utils.SUPPORTED_DEVICE_OWNERS`
(note: an explicitly passed empty list is falsy and also falls back). -/
def effectiveOwners (cfg : Config) (device_owners : Option (List String)) :
    List String :=
  match device_owners with
  | none => cfg.supported_device_owners
  | some l => if l.isEmpty then cfg.supported_device_owners else l

/-- Per-port content of `filter_by_device_owner`: conjunction of all
`notilike` unsupported-owner clauses and disjunction of the `ilike`
supported-owner clauses. -/
def devOwnerPred (cfg : Config) (device_owners : Option (List String))
    (p : Port) : Bool :=
  cfg.unsupported_device_owners.all
    (fun o => !(ciStartsWith o p.device_owner)) &&
  (effectiveOwners cfg device_owners).any
    (fun o => ciStartsWith o p.device_owner)

/-- Per-port content of `filter_by_device_id`: conjunction of `notilike`
clauses over `UNSUPPORTED_DEVICE_IDS`.  A SQL `NOT ILIKE` against a NULL
`device_id` is NULL, which the WHERE clause rejects. -/
def devIdPred (cfg : Config) (p : Port) : Bool :=
  cfg.unsupported_device_ids.all (fun i =>
    match p.device_id with
    | some d => !(ciStartsWith i d)
    | none => false)

/-- Per-port content of `filter_by_vnic_type`: the port matches when EITHER
the outer-joined `PortBinding` row OR the outer-joined
`DistributedPortBinding` row (join condition `port.id == binding.port_id`)
has the requested `vnic_type`. -/
def vnicPred (store : Store) (vnic_type : String) (p : Port) : Bool :=
  store.port_bindings.any
    (fun b => b.port_id == p.id && b.vnic_type == vnic_type) ||
  store.dist_port_bindings.any
    (fun b => b.port_id == p.id && b.vnic_type == vnic_type)

/-- Per-port content of the non-trivial branch of `filter_unmanaged_physnets`:
join `NetworkSegment` (on the port's `network_id`) and require
`segment.physical_network` to be one of the managed physnets. -/
def physnetPred (store : Store) (managed : List String) (p : Port) : Bool :=
  store.segments.any (fun s =>
    some s.network_id == p.network_id &&
    match s.physical_network with
    | some pn => managed.contains pn
    | none => false)

/-- Per-port content of `filter_inactive_ports`. -/
def activePred (p : Port) : Bool := p.status == portStatusActive

/-- `filter_unbound_ports` as a narrowing of a port-row query. -/
def filter_unbound_ports (store : Store) (q : List Port) : List Port :=
  q.filter (unboundPred store)

/-- `filter_by_device_owner` as a narrowing of a port-row query. -/
def filter_by_device_owner (cfg : Config)
    (device_owners : Option (List String)) (q : List Port) : List Port :=
  q.filter (devOwnerPred cfg device_owners)

/-- `filter_by_device_id` as a narrowing of a port-row query. -/
def filter_by_device_id (cfg : Config) (q : List Port) : List Port :=
  q.filter (devIdPred cfg)

/-- `filter_by_vnic_type` as a narrowing of a port-row query. -/
def filter_by_vnic_type (store : Store) (vnic_type : String)
    (q : List Port) : List Port :=
  q.filter (vnicPred store vnic_type)

/-- `filter_unmanaged_physnets`: the filter (and the segment join) is only
installed when `managed_physnets` is non-empty (`if managed_physnets:`). -/
def filter_unmanaged_physnets (cfg : Config) (store : Store)
    (q : List Port) : List Port :=
  if cfg.managed_physnets.isEmpty then q
  else q.filter (physnetPred store cfg.managed_physnets)

/-- `filter_inactive_ports` as a narrowing of a port-row query. -/
def filter_inactive_ports (q : List Port) : List Port :=
  q.filter activePred

/-- `filter_unnecessary_ports(query, device_owners=None, vnic_type=None,
active=True)`: the canonical composite, in source order.  The activity filter
is guarded by `if active:` and the vnic-type filter by `if vnic_type:`
(Python truthiness). -/
def filter_unnecessary_ports (cfg : Config) (store : Store)
    (device_owners : Option (List String)) (vnic_type : Option String)
    (active : Bool) (q : List Port) : List Port :=
  let q := filter_unbound_ports store q
  let q := filter_by_device_owner cfg device_owners q
  let q := filter_by_device_id cfg q
  let q := filter_unmanaged_physnets cfg store q
  let q := if active then filter_inactive_ports q else q
  if strTruthy vnic_type then
    filter_by_vnic_type store (vnic_type.getD "") q
  else q

/-- `get_ports(device_owners=None, vnic_type=None, port_id=None, active=True)`:
query over `Port`, narrowed by `filter_unnecessary_ports`, optionally
(`if port_id:`) narrowed to one port id. -/
def get_ports (cfg : Config) (store : Store)
    (device_owners : Option (List String)) (vnic_type : Option String)
    (port_id : Option String) (active : Bool) : List Port :=
  let ports := filter_unnecessary_ports cfg store device_owners vnic_type
    active store.ports
  if strTruthy port_id then ports.filter (fun p => p.id == port_id.getD "")
  else ports

/-- `get_vm_ports(port_id=None)`. -/
def get_vm_ports (cfg : Config) (store : Store) (port_id : Option String) :
    List Port :=
  get_ports cfg store (some [deviceOwnerCompute]) (some vnicNormal) port_id
    true

/-- `get_tenants(tenant_id=None)`: set union of the distinct network and port
project ids; `if tenant_id:` intersect with that single id.  The result is
modelled as a duplicate-free list of project ids (the Python wrapping of each
id into a one-field dict is immaterial). -/
def get_tenants (store : Store) (tenant_id : Option String) : List String :=
  let ids := (store.networks.map (fun n => n.project_id) ++
    store.ports.map (fun p => p.project_id)).dedup
  if strTruthy tenant_id then ids.filter (fun x => x == tenant_id.getD "")
  else ids

/-- `tenant_provisioned(tenant_id)`: `bool(network count or port count)` with
`filter_by(tenant_id=...)` (the `tenant_id` column is the `project_id`). -/
def tenant_provisioned (store : Store) (tenant_id : String) : Bool :=
  (store.networks.filter (fun n => n.project_id == tenant_id)).length != 0 ||
  (store.ports.filter (fun p => p.project_id == tenant_id)).length != 0

/-- `instance_provisioned(device_id)`: `bool(port count)` with
`port.device_id == device_id`. -/
def instance_provisioned (store : Store) (device_id : String) : Bool :=
  (store.ports.filter (fun p => p.device_id == some device_id)).length != 0

/-- `port_provisioned(port_id)`: `bool(port count)` with `port.id == port_id`. -/
def port_provisioned (store : Store) (port_id : String) : Bool :=
  (store.ports.filter (fun p => p.id == port_id)).length != 0

/-- A selected row of `get_instances`: the query selects
`(port_model, binding_model)` with `binding_model` outer-joined. -/
structure InstanceRow where
  port : Port
  binding : Option PortBinding
  deriving DecidableEq

/-- The rows of `query(Port, PortBinding).outerjoin(PortBinding,
Port.id == PortBinding.port_id)`. -/
def instanceRows (store : Store) : List InstanceRow :=
  store.ports.flatMap (fun p =>
    match store.port_bindings.filter (fun b => b.port_id == p.id) with
    | [] => [⟨p, none⟩]
    | bs => bs.map (fun b => ⟨p, some b⟩))

/-- Port-side conjunction that `filter_unnecessary_ports(device_owners,
vnic_type)` installs inside `get_instances` (`active` defaults to `True`
there). -/
def instancePortPred (cfg : Config) (store : Store)
    (device_owners : Option (List String)) (p : Port) : Bool :=
  unboundPred store p && devOwnerPred cfg device_owners p &&
  devIdPred cfg p &&
  (cfg.managed_physnets.isEmpty || physnetPred store cfg.managed_physnets p) &&
  activePred p

/-- The vnic-type disjunction of `filter_by_vnic_type` at `get_instances`
row granularity: `PortBinding` is already part of the query (so the
outer-join is skipped and the row's own binding is tested) while
`DistributedPortBinding` is newly outer-joined. -/
def rowVnicPred (store : Store) (vnic_type : String) (r : InstanceRow) :
    Bool :=
  (match r.binding with
   | some b => b.vnic_type == vnic_type
   | none => false) ||
  store.dist_port_bindings.any
    (fun d => d.port_id == r.port.id && d.vnic_type == vnic_type)

/-- Keep the first row for each key, dropping later rows with an
already-seen key (model of `.distinct(device_id).group_by(device_id)`). -/
def dedupByKeyAux {α β : Type} (key : α → β) [DecidableEq β] :
    List α → List β → List α
  | [], _ => []
  | x :: xs, seen =>
    if key x ∈ seen then dedupByKeyAux key xs seen
    else x :: dedupByKeyAux key xs (key x :: seen)

/-- Keep one row per key value (first occurrence). -/
def dedupByKey {α β : Type} (key : α → β) [DecidableEq β] (l : List α) :
    List α :=
  dedupByKeyAux key l []

/-- `get_instances(device_owners=None, vnic_type=None, instance_id=None)`:
outer-join ports to port bindings, apply `filter_unnecessary_ports`
(WHERE clauses), optionally (`if instance_id:`) restrict to one
`device_id`, and keep one row per `device_id`. -/
def get_instances (cfg : Config) (store : Store)
    (device_owners : Option (List String)) (vnic_type : Option String)
    (instance_id : Option String) : List InstanceRow :=
  let rows := (instanceRows store).filter
    (fun r => instancePortPred cfg store device_owners r.port)
  let rows := if strTruthy vnic_type then
      rows.filter (rowVnicPred store (vnic_type.getD "")) else rows
  let rows := if strTruthy instance_id then
      rows.filter (fun r => r.port.device_id == some (instance_id.getD ""))
    else rows
  dedupByKey (fun r => r.port.device_id) rows

/-- `get_dhcp_instances(instance_id=None)`. -/
def get_dhcp_instances (cfg : Config) (store : Store)
    (instance_id : Option String) : List InstanceRow :=
  get_instances cfg store (some [deviceOwnerDhcp]) none instance_id

/-- `get_router_instances(instance_id=None)`. -/
def get_router_instances (cfg : Config) (store : Store)
    (instance_id : Option String) : List InstanceRow :=
  get_instances cfg store (some [deviceOwnerDvrInterface]) none instance_id

/-- `get_vm_instances(instance_id=None)`. -/
def get_vm_instances (cfg : Config) (store : Store)
    (instance_id : Option String) : List InstanceRow :=
  get_instances cfg store (some [deviceOwnerCompute]) (some vnicNormal)
    instance_id

/-- `get_baremetal_instances(instance_id=None)`.  NOTE: the source calls
`get_instances(vnic_type=portbindings.VNIC_BAREMETAL)` and does not forward
`instance_id`; the parameter is accepted and ignored.  The model mirrors
that exactly. -/
def get_baremetal_instances (cfg : Config) (store : Store)
    (_instance_id : Option String) : List InstanceRow :=
  get_instances cfg store none (some vnicBaremetal) none

/-- The per-binding content of `filter_unnecessary_ports()` as installed on
the two binding queries of `get_port_bindings`: the binding-level table is
already outer-joined (on `port_id` AND `host`), so `filter_unbound_ports`
skips its join and its `host != ''` clause ranges over those rows; `Port` is
inner-joined on `port_id`, and all port-side clauses (device owner with
default owners, device id, physnet, `active=True`) apply to the joined port. -/
def bindingRelevant (cfg : Config) (store : Store) (b : PortBinding) :
    Bool :=
  store.binding_levels.any (fun bl =>
    bl.port_id == b.port_id && bl.host == b.host && bl.host != "") &&
  store.ports.any (fun p =>
    p.id == b.port_id && p.device_id.isSome && p.network_id.isSome &&
    devOwnerPred cfg none p && devIdPred cfg p &&
    (cfg.managed_physnets.isEmpty ||
      physnetPred store cfg.managed_physnets p) &&
    activePred p)

/-- A dynamically-typed Python value, as far as `binding_key` handling is
concerned: `get_port_bindings` probes its argument with indexing and a
`type(...) == tuple` test, so the argument's shape is data. -/
inductive PyVal where
  | str : String → PyVal
  | int : Int → PyVal
  | tup : List PyVal → PyVal

/-- Python truthiness (`if binding_key:`). -/
def pyTruthy : PyVal → Bool
  | .str s => s != ""
  | .int n => n != 0
  | .tup l => !l.isEmpty

/-- Python `'%s' % v` string conversion.  Only the string and int cases are
exercised by the properties below; the tuple rendering is abbreviated. -/
def pyStr : PyVal → String
  | .str s => s
  | .int n => toString n
  | .tup _ => "(..)"

/-- SQL equality of a string column against a Python value: comparing a
string column with a non-string value never matches a stored row. -/
def pyEqStr (s : String) : PyVal → Bool
  | .str t => s == t
  | _ => false

/-- Python indexing `v[i]`: tuples and strings index; missing elements raise
`IndexError`; non-sequences raise `TypeError`. -/
def pyIndex : PyVal → Nat → Except String PyVal
  | .tup l, i =>
    match l.get? i with
    | some v => Except.ok v
    | none => Except.error "IndexError"
  | .str s, i =>
    match s.data.get? i with
    | some c => Except.ok (.str (String.mk [c]))
    | none => Except.error "IndexError"
  | .int _, _ => Except.error "TypeError"

/-- `get_port_bindings(binding_key=None)`: both binding tables are gated by
`filter_unnecessary_ports()`; `if binding_key:` the key is unpacked by
indexing, dispatching on `type(binding_key[1]) == tuple` between the
profile-substring filter and the exact-host filter; the two result lists are
concatenated.  Uncaught Python exceptions are modelled as `Except.error`. -/
def get_port_bindings (cfg : Config) (store : Store)
    (binding_key : Option PyVal) : Except String (List PortBinding) :=
  let bindings := store.port_bindings.filter (bindingRelevant cfg store)
  let dist_bindings :=
    store.dist_port_bindings.filter (bindingRelevant cfg store)
  match binding_key with
  | some k =>
    if pyTruthy k then do
      let port_id ← pyIndex k 0
      let second ← pyIndex k 1
      match second with
      | .tup _ => do
        let switch_id ← pyIndex second 0
        let switch_port ← pyIndex second 1
        Except.ok
          ((bindings.filter (fun b => pyEqStr b.port_id port_id &&
              ciHasSub b.profile (pyStr switch_id) &&
              ciHasSub b.profile (pyStr switch_port))) ++
           (dist_bindings.filter (fun b => pyEqStr b.port_id port_id &&
              ciHasSub b.profile (pyStr switch_id) &&
              ciHasSub b.profile (pyStr switch_port))))
      | _ =>
        Except.ok
          ((bindings.filter (fun b => pyEqStr b.port_id port_id &&
              pyEqStr b.host second)) ++
           (dist_bindings.filter (fun b => pyEqStr b.port_id port_id &&
              pyEqStr b.host second)))
    else Except.ok (bindings ++ dist_bindings)
  | none => Except.ok (bindings ++ dist_bindings)

/-- The slice of a SQLAlchemy `Query` that `join_if_necessary` /
`outerjoin_if_necessary` inspect: the primary entities, the set of entities
already joined, and the query's result rows. -/
structure DbQuery (α : Type) where
  primaryEntities : List String
  joinEntities : List String
  rows : List α
  deriving DecidableEq

/-- `join_if_necessary(query, table, ...)`: return the query unchanged when
`table` is among the joined entities or the primary entities, otherwise
perform the join (`doJoin` stands for `query.join(*args, **kwargs)`). -/
def join_if_necessary {α : Type} (q : DbQuery α) (table : String)
    (doJoin : DbQuery α → DbQuery α) : DbQuery α :=
  if table ∈ q.joinEntities then q
  else if table ∈ q.primaryEntities then q
  else doJoin q

/-- `outerjoin_if_necessary(query, table, ...)`: textually the same guard as
`join_if_necessary`, performing an outer join instead. -/
def outerjoin_if_necessary {α : Type} (q : DbQuery α) (table : String)
    (doOuterJoin : DbQuery α → DbQuery α) : DbQuery α :=
  if table ∈ q.joinEntities then q
  else if table ∈ q.primaryEntities then q
  else doOuterJoin q

/-- Names for the component filters chained by `filter_unnecessary_ports`. -/
inductive PortFilterStep where
  | unbound
  | devOwner
  | devId
  | physnet
  | inactive
  | vnic
  deriving DecidableEq

/-- Run one component filter (the vnic step uses the supplied vnic type). -/
def applyStep (cfg : Config) (store : Store)
    (device_owners : Option (List String)) (vnic_type : String) :
    PortFilterStep → List Port → List Port
  | .unbound, q => filter_unbound_ports store q
  | .devOwner, q => filter_by_device_owner cfg device_owners q
  | .devId, q => filter_by_device_id cfg q
  | .physnet, q => filter_unmanaged_physnets cfg store q
  | .inactive, q => filter_inactive_ports q
  | .vnic, q => filter_by_vnic_type store vnic_type q

/-- The per-port predicate of each component filter (for the physnet step,
an empty allowlist makes the predicate vacuously true). -/
def stepPred (cfg : Config) (store : Store)
    (device_owners : Option (List String)) (vnic_type : String) :
    PortFilterStep → Port → Bool
  | .unbound => unboundPred store
  | .devOwner => devOwnerPred cfg device_owners
  | .devId => devIdPred cfg
  | .physnet => fun p =>
      cfg.managed_physnets.isEmpty ||
      physnetPred store cfg.managed_physnets p
  | .inactive => activePred
  | .vnic => vnicPred store vnic_type

/-- Chain a list of component filters over a port query, left to right. -/
def chainSteps (cfg : Config) (store : Store)
    (device_owners : Option (List String)) (vnic_type : String)
    (steps : List PortFilterStep) (q : List Port) : List Port :=
  steps.foldl (fun acc s => applyStep cfg store device_owners vnic_type s acc)
    q

/-- The order in which `filter_unnecessary_ports` chains its component
filters, including the two conditional steps. -/
def canonicalSteps (active : Bool) (vnic_type : Option String) :
    List PortFilterStep :=
  [.unbound, .devOwner, .devId, .physnet] ++
  (if active then [.inactive] else []) ++
  (if strTruthy vnic_type then [.vnic] else [])

/-! ## Concrete fixtures used by witnesses and counterexamples -/

/-- A configuration supporting `compute:` owners, with no unsupported
prefixes, no unsupported device ids, and no managed-physnet allowlist. -/
def cfgCompute : Config := ⟨["compute:"], [], [], []⟩

/-- An active, bound compute port. -/
def portVm1 : Port :=
  ⟨"p1", some "n1", some "vm1", "compute:nova", "t1", "ACTIVE"⟩

/-- A store holding `portVm1`, bound on host `host1` with a `normal`
port binding. -/
def storeVm1 : Store :=
  ⟨[], [portVm1], [], [⟨"p1", "host1", "normal", "prof1"⟩], [],
   [⟨"p1", "host1", 0⟩]⟩

/-- A configuration with supported owner `a:` and unsupported owner `b:`. -/
def cfgAb : Config := ⟨["a:"], ["b:"], [], []⟩

/-- A port owned by `a:x`. -/
def portA : Port := ⟨"p1", some "n1", some "d1", "a:x", "t1", "ACTIVE"⟩

/-- A configuration whose managed-physnet allowlist is `["physnet1"]`. -/
def cfgPhys : Config := ⟨["compute:"], [], [], ["physnet1"]⟩

/-- A segment of network `n1` on `physnet1`. -/
def segPhys : NetworkSegment := ⟨"s1", "n1", "vlan", some "physnet1"⟩

/-- A store holding `portA` and `segPhys`. -/
def storePhys : Store := ⟨[], [portA], [segPhys], [], [], []⟩

/-- A store holding one network of tenant `t1` and nothing else. -/
def storeNet1 : Store := ⟨[⟨"n1", "t1"⟩], [], [], [], [], []⟩

/-- Active compute port of instance `i1`. -/
def portI1 : Port :=
  ⟨"pA", some "n1", some "i1", "compute:nova", "t1", "ACTIVE"⟩

/-- Active compute port of instance `i2`. -/
def portI2 : Port :=
  ⟨"pB", some "n1", some "i2", "compute:nova", "t1", "ACTIVE"⟩

/-- Baremetal binding of `portI1`. -/
def bindI1 : PortBinding := ⟨"pA", "h1", "baremetal", "profA"⟩

/-- Baremetal binding of `portI2`. -/
def bindI2 : PortBinding := ⟨"pB", "h1", "baremetal", "profB"⟩

/-- A store holding two bound, active baremetal instances `i1` and `i2`. -/
def storeBm : Store :=
  ⟨[], [portI1, portI2], [], [bindI1, bindI2], [],
   [⟨"pA", "h1", 0⟩, ⟨"pB", "h1", 0⟩]⟩

/-- A binding of port `p1` on host `h1` that passes the relevance gate of
`get_port_bindings` in `storeVm1`. -/
def bindP1 : PortBinding := ⟨"p1", "host1", "normal", "prof1"⟩

/-- A two-row query over a `Port` primary entity with no joins yet. -/
def queryPorts : DbQuery Nat := ⟨["Port"], [], [1, 2]⟩

/-- A join operation that records `NetworkSegment` as joined and duplicates
every row (the worst case the guard must protect against on repeat). -/
def joinSeg (q : DbQuery Nat) : DbQuery Nat :=
  ⟨q.primaryEntities, "NetworkSegment" :: q.joinEntities, q.rows ++ q.rows⟩

/-! ## Helper lemmas -/

/-- Each component filter is the `List.filter` of its per-port predicate. -/
theorem applyStep_eq_filter (cfg : Config) (store : Store)
    (dos : Option (List String)) (v : String) (s : PortFilterStep)
    (q : List Port) :
    applyStep cfg store dos v s q = q.filter (stepPred cfg store dos v s) := by
  cases s
  case unbound => rfl
  case devOwner => rfl
  case devId => rfl
  case physnet =>
    show filter_unmanaged_physnets cfg store q = _
    unfold filter_unmanaged_physnets stepPred
    by_cases h : cfg.managed_physnets.isEmpty
    · simp [h]
    · simp [h]
  case inactive => rfl
  case vnic => rfl

/-- Chaining component filters computes the filter of the conjunction of
their per-port predicates. -/
theorem chainSteps_eq_filter (cfg : Config) (store : Store)
    (dos : Option (List String)) (v : String)
    (steps : List PortFilterStep) (q : List Port) :
    chainSteps cfg store dos v steps q =
      q.filter (fun p => steps.all (fun s => stepPred cfg store dos v s p)) := by
  induction steps generalizing q with
  | nil => simp [chainSteps]
  | cons s ss ih =>
    have h1 : chainSteps cfg store dos v (s :: ss) q =
        chainSteps cfg store dos v ss (applyStep cfg store dos v s q) := rfl
    rw [h1, ih, applyStep_eq_filter, List.filter_filter]
    refine List.filter_congr ?_
    intro x hx
    simp [List.all_cons, Bool.and_comm]

/-- `List.all` only depends on the multiset of elements. -/
theorem listAllPerm {α : Type} (f : α → Bool) {l1 l2 : List α}
    (h : l1.Perm l2) : l1.all f = l2.all f := by
  rw [Bool.eq_iff_iff, List.all_eq_true, List.all_eq_true]
  constructor
  · intro hx x hmem
    exact hx x (h.mem_iff.mpr hmem)
  · intro hx x hmem
    exact hx x (h.mem_iff.mp hmem)

/-- `filter_unnecessary_ports` is the chain of its component filters in the
canonical order. -/
theorem fup_eq_chain (cfg : Config) (store : Store)
    (dos : Option (List String)) (vt : Option String) (active : Bool)
    (q : List Port) :
    filter_unnecessary_ports cfg store dos vt active q =
      chainSteps cfg store dos (vt.getD "") (canonicalSteps active vt) q := by
  by_cases ha : active <;> by_cases hv : strTruthy vt <;>
    simp [filter_unnecessary_ports, canonicalSteps, chainSteps, applyStep,
      ha, hv]

/-- Membership characterization of `filter_unnecessary_ports`. -/
theorem mem_fup (cfg : Config) (store : Store) (dos : Option (List String))
    (vt : Option String) (active : Bool) (q : List Port) (P : Port) :
    P ∈ filter_unnecessary_ports cfg store dos vt active q ↔
      P ∈ q ∧ unboundPred store P = true ∧ devOwnerPred cfg dos P = true ∧
      devIdPred cfg P = true ∧
      (cfg.managed_physnets.isEmpty ||
        physnetPred store cfg.managed_physnets P) = true ∧
      (active = true → activePred P = true) ∧
      (strTruthy vt = true → vnicPred store (vt.getD "") P = true) := by
  rw [fup_eq_chain, chainSteps_eq_filter, List.mem_filter]
  by_cases ha : active <;> by_cases hv : strTruthy vt <;>
    simp [canonicalSteps, ha, hv, stepPred, and_assoc]

/-! ## Claim theorems -/

/-- C1: a port appears in `get_vm_ports()` iff its `device_owner` starts
with the compute prefix, its vnic type is `normal` via either the
port-binding or the distributed-port-binding table, and it passes
`filter_unnecessary_ports` (with the VM parameters) with `active=True`. -/
theorem claim_C1 : ∀ (cfg : Config) (store : Store) (P : Port),
    P ∈ get_vm_ports cfg store none ↔
      ciStartsWith deviceOwnerCompute P.device_owner = true ∧
      vnicPred store vnicNormal P = true ∧
      P ∈ filter_unnecessary_ports cfg store (some [deviceOwnerCompute])
        (some vnicNormal) true store.ports := by
  intro cfg store P
  have hv : get_vm_ports cfg store none =
      filter_unnecessary_ports cfg store (some [deviceOwnerCompute])
        (some vnicNormal) true store.ports := rfl
  rw [hv]
  constructor
  · intro h
    have hm := (mem_fup cfg store (some [deviceOwnerCompute])
      (some vnicNormal) true store.ports P).mp h
    obtain ⟨-, -, how, -, -, -, hvn⟩ := hm
    refine ⟨?_, ?_, h⟩
    · unfold devOwnerPred at how
      rw [Bool.and_eq_true] at how
      have h2 := how.2
      unfold effectiveOwners at h2
      simpa using h2
    · simpa using hvn (by decide)
  · rintro ⟨-, -, h⟩
    exact h

/-- C2 (amended): `filter_unnecessary_ports` chains, in order, the
unbound-port, device-owner, device-id and unmanaged-physnet filters, then
the activity filter iff `active` is true, then the vnic-type filter iff
`vnic_type` is given AND non-empty (Python truthiness); and chaining the
same component filters in any other order yields the same result set. -/
theorem claim_C2 : ∀ (cfg : Config) (store : Store)
    (dos : Option (List String)) (vt : Option String) (active : Bool)
    (q : List Port) (steps2 : List PortFilterStep),
    filter_unnecessary_ports cfg store dos vt active q =
      chainSteps cfg store dos (vt.getD "") (canonicalSteps active vt) q ∧
    ((canonicalSteps active vt).Perm steps2 →
      chainSteps cfg store dos (vt.getD "") steps2 q =
        filter_unnecessary_ports cfg store dos vt active q) := by
  intro cfg store dos vt active q steps2
  refine ⟨fup_eq_chain cfg store dos vt active q, ?_⟩
  intro hperm
  rw [fup_eq_chain, chainSteps_eq_filter, chainSteps_eq_filter]
  refine List.filter_congr ?_
  intro x _
  exact (listAllPerm _ hperm).symm

/-- C2 witness: reordering the six component filters of the VM-ports
parameterization leaves the result unchanged on a concrete store. -/
theorem claim_C2_witness :
    chainSteps cfgCompute storeVm1 none "normal"
      [.devOwner, .unbound, .devId, .physnet, .inactive, .vnic]
      storeVm1.ports =
    filter_unnecessary_ports cfgCompute storeVm1 none (some "normal") true
      storeVm1.ports :=
  (claim_C2 cfgCompute storeVm1 none (some "normal") true storeVm1.ports
    [.devOwner, .unbound, .devId, .physnet, .inactive, .vnic]).2 (by decide)

/-- C2 counterexample: with `vnic_type` given as the empty string the source
skips the vnic-type filter (`if vnic_type:` is falsy), so the claim's
"vnic-type filter iff vnicType is given" fails: the port survives although
applying the vnic-type filter for `""` would remove it. -/
theorem claim_C2_counterexample :
    filter_unnecessary_ports cfgCompute storeVm1 none (some "") true
      storeVm1.ports = [portVm1] ∧
    filter_by_vnic_type storeVm1 ""
      (filter_unnecessary_ports cfgCompute storeVm1 none none true
        storeVm1.ports) = [] := by
  exact ⟨by decide, by decide⟩

/-- Characterization of the device-owner predicate. -/
theorem devOwnerPred_iff (cfg : Config) (os : Option (List String))
    (P : Port) :
    devOwnerPred cfg os P = true ↔
      (∃ o ∈ effectiveOwners cfg os, ciStartsWith o P.device_owner = true) ∧
      ∀ u ∈ cfg.unsupported_device_owners,
        ciStartsWith u P.device_owner = false := by
  unfold devOwnerPred
  rw [Bool.and_eq_true, List.all_eq_true, List.any_eq_true]
  simp only [Bool.not_eq_true']
  tauto

/-- C3 (amended): when a non-empty `device_owners` list is given,
`filter_by_device_owner` keeps exactly the ports whose `device_owner`
starts with one of the given prefixes and with no globally unsupported
prefix; when the argument is omitted the global supported list is used
(a passed empty list is falsy and also falls back to it); the
unsupported-prefix exclusion is applied in both cases. -/
theorem claim_C3 : ∀ (cfg : Config) (q : List Port) (P : Port),
    (∀ owners : List String, owners ≠ [] →
      (P ∈ filter_by_device_owner cfg (some owners) q ↔
        P ∈ q ∧ (∃ o ∈ owners, ciStartsWith o P.device_owner = true) ∧
        ∀ u ∈ cfg.unsupported_device_owners,
          ciStartsWith u P.device_owner = false)) ∧
    (P ∈ filter_by_device_owner cfg none q ↔
      P ∈ q ∧
      (∃ o ∈ cfg.supported_device_owners,
        ciStartsWith o P.device_owner = true) ∧
      ∀ u ∈ cfg.unsupported_device_owners,
        ciStartsWith u P.device_owner = false) := by
  intro cfg q P
  constructor
  · intro owners how
    have heff : effectiveOwners cfg (some owners) = owners := by
      unfold effectiveOwners
      cases hh : owners.isEmpty
      · simp [hh]
      · exact absurd (List.isEmpty_iff.mp hh) how
    rw [filter_by_device_owner, List.mem_filter, devOwnerPred_iff, heff]
  · rw [filter_by_device_owner, List.mem_filter, devOwnerPred_iff]
    rfl

/-- C3 witness: a port owned by `a:x` is kept by the explicit owners list
`["a:"]` under a config whose unsupported list is `["b:"]`. -/
theorem claim_C3_witness :
    portA ∈ filter_by_device_owner cfgAb (some ["a:"]) [portA] :=
  ((claim_C3 cfgAb [portA] portA).1 ["a:"] (by decide)).mpr (by decide)

/-- C3 counterexample: with an explicitly given EMPTY owners list the source
falls back to the global supported list (`if not device_owners:`), keeping
a port that matches no prefix of the given list — the claim, read over
every given owners argument, would exclude it. -/
theorem claim_C3_counterexample :
    filter_by_device_owner cfgAb (some []) [portA] = [portA] ∧
    ¬ ∃ o ∈ ([] : List String), ciStartsWith o portA.device_owner = true := by
  exact ⟨by decide, by simp⟩

/-- Characterization of the managed-physnet predicate. -/
theorem physnetPred_iff (store : Store) (managed : List String) (P : Port) :
    physnetPred store managed P = true ↔
      ∃ s ∈ store.segments, P.network_id = some s.network_id ∧
        ∃ pn, s.physical_network = some pn ∧ pn ∈ managed := by
  unfold physnetPred
  rw [List.any_eq_true]
  constructor
  · rintro ⟨s, hs, hcond⟩
    rw [Bool.and_eq_true] at hcond
    obtain ⟨h1, h2⟩ := hcond
    refine ⟨s, hs, (beq_iff_eq.mp h1).symm, ?_⟩
    cases hpn : s.physical_network with
    | none => rw [hpn] at h2; exact absurd h2 (by simp)
    | some pn =>
      rw [hpn] at h2
      exact ⟨pn, rfl, by simpa using h2⟩
  · rintro ⟨s, hs, h1, pn, h2, h3⟩
    refine ⟨s, hs, ?_⟩
    rw [Bool.and_eq_true]
    refine ⟨by simp [h1], ?_⟩
    rw [h2]
    simpa using h3

/-- C4: with an empty managed-physnets allowlist `filter_unmanaged_physnets`
is the identity on the result set; with a non-empty allowlist it keeps
exactly the ports one of whose network's segments has a physical network in
the allowlist. -/
theorem claim_C4 : ∀ (cfg : Config) (store : Store) (q : List Port),
    (cfg.managed_physnets = [] →
      filter_unmanaged_physnets cfg store q = q) ∧
    (cfg.managed_physnets ≠ [] → ∀ P,
      P ∈ filter_unmanaged_physnets cfg store q ↔
        P ∈ q ∧ ∃ s ∈ store.segments, P.network_id = some s.network_id ∧
          ∃ pn, s.physical_network = some pn ∧
            pn ∈ cfg.managed_physnets) := by
  intro cfg store q
  constructor
  · intro h
    unfold filter_unmanaged_physnets
    simp [h]
  · intro h P
    have hne : cfg.managed_physnets.isEmpty = false := by
      cases hh : cfg.managed_physnets.isEmpty
      · rfl
      · exact absurd (List.isEmpty_iff.mp hh) h
    unfold filter_unmanaged_physnets
    rw [hne]
    simp only [Bool.false_eq_true, if_false]
    rw [List.mem_filter, physnetPred_iff]

/-- C4 witness: on a store whose only segment lies on `physnet1` and a
config managing exactly `physnet1`, the port on that network is kept. -/
theorem claim_C4_witness :
    portA ∈ filter_unmanaged_physnets cfgPhys storePhys [portA] :=
  ((claim_C4 cfgPhys storePhys [portA]).2 (by decide) portA).mpr
    (by exact ⟨by decide, segPhys, by decide, by decide, "physnet1",
      by decide, by decide⟩)

/-- A duplicate-free list whose elements are all equal has at most one
element. -/
theorem nodup_all_eq_length_le_one {α : Type} (l : List α) (t : α)
    (hn : l.Nodup) (hall : ∀ x ∈ l, x = t) : l.length ≤ 1 := by
  match l with
  | [] => simp
  | [x] => simp
  | x :: y :: rest =>
    exfalso
    have hx := hall x (by simp)
    have hy := hall y (by simp)
    have hne : x ≠ y := by
      intro he
      exact (List.nodup_cons.mp hn).1 (he ▸ List.mem_cons_self y rest)
    exact hne (hx.trans hy.symm)

/-- C5 (amended): `get_tenants()` returns each project id referenced by a
network or a port exactly once; when a NON-EMPTY `tenant_id` is given the
result is the intersection of that union with the singleton of that id,
hence has at most one element.  (An empty-string `tenant_id` is falsy and
behaves as if absent.) -/
theorem claim_C5 : ∀ (store : Store) (t : String),
    (∀ x, x ∈ get_tenants store none ↔
      (∃ n ∈ store.networks, n.project_id = x) ∨
      (∃ p ∈ store.ports, p.project_id = x)) ∧
    (get_tenants store none).Nodup ∧
    (t ≠ "" →
      get_tenants store (some t) =
        (get_tenants store none).filter (fun x => x == t)) ∧
    (t ≠ "" → (get_tenants store (some t)).length ≤ 1) := by
  intro store t
  have hnone : get_tenants store none =
      (store.networks.map (fun n => n.project_id) ++
        store.ports.map (fun p => p.project_id)).dedup := rfl
  have hsome : t ≠ "" → get_tenants store (some t) =
      (get_tenants store none).filter (fun x => x == t) := by
    intro h
    rw [hnone]
    simp [get_tenants, strTruthy, bne_iff_ne, h]
  refine ⟨?_, ?_, hsome, ?_⟩
  · intro x
    rw [hnone, List.mem_dedup, List.mem_append]
    simp [List.mem_map]
  · rw [hnone]
    exact List.nodup_dedup _
  · intro h
    rw [hsome h]
    refine nodup_all_eq_length_le_one _ t ?_ ?_
    · refine List.Nodup.filter _ ?_
      rw [hnone]
      exact List.nodup_dedup _
    · intro x hx
      rw [List.mem_filter] at hx
      exact beq_iff_eq.mp hx.2

/-- C5 witness: with one network of tenant `t1`, asking for tenant `t1`
yields the intersection of the union with that singleton. -/
theorem claim_C5_witness :
    get_tenants storeNet1 (some "t1") =
      (get_tenants storeNet1 none).filter (fun x => x == "t1") :=
  (claim_C5 storeNet1 "t1").2.2.1 (by decide)

/-- C5 counterexample: with `tenant_id` given as the empty string
(`if tenant_id:` is falsy) the intersection step is skipped and the full
union is returned, although the claim, read over every given argument,
predicts the result to be a subset of the singleton of the empty string. -/
theorem claim_C5_counterexample :
    get_tenants storeNet1 (some "") = ["t1"] ∧ ("t1" : String) ≠ "" := by
  exact ⟨by decide, by decide⟩

/-- C6: keyed `get_port_bindings`.  With a `(portId, (switchId, switchPort))`
key the result is exactly the relevance-gated bindings of that port whose
profile contains both substrings; with a `(portId, hostId)` key it is the
exact-host restriction; and in each case (including no key) the result is
the port-binding rows concatenated with the distributed-port-binding rows. -/
theorem claim_C6 : ∀ (cfg : Config) (store : Store)
    (pid sid sp host_id : String),
    get_port_bindings cfg store
        (some (.tup [.str pid, .tup [.str sid, .str sp]])) =
      Except.ok
        (((store.port_bindings.filter (bindingRelevant cfg store)).filter
            (fun b => b.port_id == pid && ciHasSub b.profile sid &&
              ciHasSub b.profile sp)) ++
         ((store.dist_port_bindings.filter
            (bindingRelevant cfg store)).filter
            (fun b => b.port_id == pid && ciHasSub b.profile sid &&
              ciHasSub b.profile sp))) ∧
    get_port_bindings cfg store (some (.tup [.str pid, .str host_id])) =
      Except.ok
        (((store.port_bindings.filter (bindingRelevant cfg store)).filter
            (fun b => b.port_id == pid && b.host == host_id)) ++
         ((store.dist_port_bindings.filter
            (bindingRelevant cfg store)).filter
            (fun b => b.port_id == pid && b.host == host_id))) ∧
    get_port_bindings cfg store none =
      Except.ok
        ((store.port_bindings.filter (bindingRelevant cfg store)) ++
         (store.dist_port_bindings.filter (bindingRelevant cfg store))) := by
  intro cfg store pid sid sp host_id
  exact ⟨rfl, rfl, rfl⟩

/-- C7 (code bug): `get_baremetal_instances` accepts `instance_id` but does
not forward it to `get_instances`, so the claimed `device_id` narrowing is
not applied: asking for instance `i1` on a store with two relevant
baremetal instances returns both rows, identical to the unfiltered call,
while the correspondingly parameterized `get_instances` narrows correctly. -/
theorem claim_C7 :
    get_baremetal_instances cfgCompute storeBm (some "i1") =
      [⟨portI1, some bindI1⟩, ⟨portI2, some bindI2⟩] ∧
    get_baremetal_instances cfgCompute storeBm (some "i1") =
      get_baremetal_instances cfgCompute storeBm none ∧
    get_instances cfgCompute storeBm none (some vnicBaremetal)
        (some "i1") = [⟨portI1, some bindI1⟩] := by
  exact ⟨by decide, by decide, by decide⟩

/-- C8: the three provisioned predicates are raw existence checks over the
store, with no relevance filtering, returning `false` (not an error) when
nothing matches. -/
theorem claim_C8 : ∀ (store : Store) (t d pid : String),
    (tenant_provisioned store t = true ↔
      (∃ n ∈ store.networks, n.project_id = t) ∨
      (∃ p ∈ store.ports, p.project_id = t)) ∧
    (instance_provisioned store d = true ↔
      ∃ p ∈ store.ports, p.device_id = some d) ∧
    (port_provisioned store pid = true ↔
      ∃ p ∈ store.ports, p.id = pid) := by
  intro store t d pid
  refine ⟨?_, ?_, ?_⟩ <;>
    simp [tenant_provisioned, instance_provisioned, port_provisioned,
      bne_iff_ne, ← Nat.pos_iff_ne_zero, List.length_pos_iff_exists_mem,
      List.mem_filter]

/-- C9 (amended): a `binding_key` missing its second element fails fast
(uncaught `IndexError`), but a second element of an unexpected non-tuple
type does NOT fail: it is treated as a host id, and since a string host
column never equals a non-string value, the call silently succeeds with a
misfiltered (empty) binding list. -/
theorem claim_C9 : ∀ (cfg : Config) (store : Store) (v : PyVal)
    (pid : String) (n : Int),
    get_port_bindings cfg store (some (.tup [v])) =
      Except.error "IndexError" ∧
    get_port_bindings cfg store (some (.tup [.str pid, .int n])) =
      Except.ok [] := by
  intro cfg store v pid n
  constructor
  · rfl
  · have hf : ∀ (l : List PortBinding),
        l.filter (fun b => pyEqStr b.port_id (.str pid) &&
          pyEqStr b.host (.int n)) = [] := by
      intro l
      have hp : ∀ b ∈ l, (pyEqStr b.port_id (.str pid) &&
          pyEqStr b.host (.int n)) = (fun _ : PortBinding => false) b := by
        intro b _
        simp [pyEqStr]
      rw [List.filter_congr hp, List.filter_false]
    have hstep : get_port_bindings cfg store
        (some (.tup [.str pid, .int n])) =
      Except.ok
        (((store.port_bindings.filter (bindingRelevant cfg store)).filter
            (fun b => pyEqStr b.port_id (.str pid) &&
              pyEqStr b.host (.int n))) ++
         ((store.dist_port_bindings.filter
            (bindingRelevant cfg store)).filter
            (fun b => pyEqStr b.port_id (.str pid) &&
              pyEqStr b.host (.int n)))) := rfl
    rw [hstep, hf, hf]
    rfl

/-- C9 counterexample: on a store holding a relevant binding for port `p1`,
the malformed key `("p1", 5)` does not raise: it returns an empty list,
silently misfiltering, where the claim demands a fail-fast error. -/
theorem claim_C9_counterexample :
    get_port_bindings cfgCompute storeVm1 (some (.tup [.str "p1", .int 5]))
      = Except.ok [] ∧
    get_port_bindings cfgCompute storeVm1 none = Except.ok [bindP1] := by
  exact ⟨rfl, rfl⟩

/-- C10: the join-if-necessary primitives return the query unchanged when
the target entity is already joined or primary; consequently, as long as
the real join records the joined entity, repeating the same join is a
no-op and cannot duplicate rows in any result built from the query. -/
theorem claim_C10 : ∀ (α : Type) (q : DbQuery α) (t : String)
    (j oj : DbQuery α → DbQuery α),
    ((t ∈ q.joinEntities ∨ t ∈ q.primaryEntities) →
      join_if_necessary q t j = q ∧ outerjoin_if_necessary q t oj = q) ∧
    ((∀ r, t ∈ (j r).joinEntities) →
      join_if_necessary (join_if_necessary q t j) t j =
        join_if_necessary q t j ∧
      (join_if_necessary (join_if_necessary q t j) t j).rows =
        (join_if_necessary q t j).rows) ∧
    ((∀ r, t ∈ (oj r).joinEntities) →
      outerjoin_if_necessary (outerjoin_if_necessary q t oj) t oj =
        outerjoin_if_necessary q t oj) := by
  intro α q t j oj
  have hskip : ∀ (d : DbQuery α → DbQuery α) (r : DbQuery α),
      (t ∈ r.joinEntities ∨ t ∈ r.primaryEntities) →
      (if t ∈ r.joinEntities then r
        else if t ∈ r.primaryEntities then r else d r) = r := by
    intro d r hr
    rcases hr with h | h
    · simp [h]
    · by_cases h2 : t ∈ r.joinEntities <;> simp [h, h2]
  have hmem : ∀ (d : DbQuery α → DbQuery α),
      (∀ r, t ∈ (d r).joinEntities) →
      (t ∈ (if t ∈ q.joinEntities then q
        else if t ∈ q.primaryEntities then q else d q).joinEntities ∨
       t ∈ (if t ∈ q.joinEntities then q
        else if t ∈ q.primaryEntities then q else d q).primaryEntities) := by
    intro d hd
    by_cases h1 : t ∈ q.joinEntities
    · simp [h1]
    · by_cases h2 : t ∈ q.primaryEntities
      · simp [h1, h2]
      · simp [h1, h2]
        exact Or.inl (hd q)
  refine ⟨?_, ?_, ?_⟩
  · intro h
    exact ⟨hskip j q h, hskip oj q h⟩
  · intro hj
    have heq : join_if_necessary (join_if_necessary q t j) t j =
        join_if_necessary q t j := hskip j _ (hmem j hj)
    exact ⟨heq, by rw [heq]⟩
  · intro hoj
    exact hskip oj _ (hmem oj hoj)

/-- C10 witness: joining `NetworkSegment` (with a row-duplicating join
operation) twice into a port query gives the same query, hence the same
rows, as joining it once. -/
theorem claim_C10_witness :
    join_if_necessary (join_if_necessary queryPorts "NetworkSegment" joinSeg)
        "NetworkSegment" joinSeg =
      join_if_necessary queryPorts "NetworkSegment" joinSeg :=
  ((claim_C10 Nat queryPorts "NetworkSegment" joinSeg joinSeg).2.1
    (fun r => List.mem_cons_self "NetworkSegment" r.joinEntities)).1
